import Mathlib

/-!
Shallow embedding of the media-processing gateway in `server.py`:
the voice catalog (`language_dict`), the TTS generator
(`generate_tts_audio`), and the two request handlers (`transcribe`,
`text_to_speech`). Python/JSON values are modelled by `PyValue`,
the filesystem of temporary artifacts and the process-wide catalog by
`Store`, and the external backends (replicate.run, edge_tts save) by
explicit result oracles. Each handler returns its HTTP response, the
final store, and the trace of backend invocations it performed.
-/

/-- A Python/JSON value, covering the shapes the gateway manipulates. -/
inductive PyValue where
  | pynull
  | pybool (b : Bool)
  | pyint (n : Int)
  | pystr (s : String)
  | pylist (xs : List PyValue)
  | pydict (entries : List (String × PyValue))

mutual
/-- Python `repr` of a value (used by `str` on containers). -/
def pyRepr : PyValue → String
  | .pynull => "None"
  | .pybool true => "True"
  | .pybool false => "False"
  | .pyint n => toString n
  | .pystr s => "\x27" ++ s ++ "\x27"
  | .pylist xs => "[" ++ String.intercalate ", " (pyReprList xs) ++ "]"
  | .pydict es => "\x7b" ++ String.intercalate ", " (pyReprDict es) ++ "\x7d"

def pyReprList : List PyValue → List String
  | [] => []
  | x :: xs => pyRepr x :: pyReprList xs

def pyReprDict : List (String × PyValue) → List String
  | [] => []
  | e :: es => ("\x27" ++ e.1 ++ "\x27: " ++ pyRepr e.2) :: pyReprDict es
end

/-- Python `str()` of a value (a string stringifies to itself). -/
def pyStr : PyValue → String
  | .pystr s => s
  | v => pyRepr v

/-- Python type name, as it appears in error messages. -/
def typeName : PyValue → String
  | .pynull => "NoneType"
  | .pybool _ => "bool"
  | .pyint _ => "int"
  | .pystr _ => "str"
  | .pylist _ => "list"
  | .pydict _ => "dict"

/-- Python truthiness of a value (`not data`). -/
def pyTruthy : PyValue → Bool
  | .pynull => false
  | .pybool b => b
  | .pyint n => n != 0
  | .pystr s => s != ""
  | .pylist xs => !xs.isEmpty
  | .pydict es => !es.isEmpty

/-- Lookup of a string key in a dict entry list (`dict.get` core). -/
def pyGet (es : List (String × PyValue)) (k : String) : Option PyValue :=
  match es with
  | [] => none
  | (k2, v) :: rest => if k2 = k then some v else pyGet rest k

/-- Is a value a string equal to `k`? (Python `==` against a str). -/
def isStrEq (k : String) : PyValue → Bool
  | .pystr s => s == k
  | _ => false

/-- Python `k in v` for a string `k`; raises TypeError on non-containers. -/
def pyIn (k : String) : PyValue → Except String Bool
  | .pydict es => .ok (es.any (fun p => p.1 == k))
  | .pylist xs => .ok (xs.any (isStrEq k))
  | .pystr s => .ok (decide ((s.splitOn k).length > 1))
  | v => .error ("argument of type \x27" ++ typeName v ++ "\x27 is not iterable")

/-- Python `v[k]` for a string key; raises on non-dicts and missing keys. -/
def pySubscript (v : PyValue) (k : String) : Except String PyValue :=
  match v with
  | .pydict es =>
    match pyGet es k with
    | some x => .ok x
    | none => .error ("KeyError: \x27" ++ k ++ "\x27")
  | .pylist _ => .error "list indices must be integers or slices, not str"
  | .pystr _ => .error "string indices must be integers"
  | x => .error ("\x27" ++ typeName x ++ "\x27 object is not subscriptable")

/-- Python `v.get(k, default)`; raises AttributeError on non-dicts. -/
def pyGetMethod (v : PyValue) (k : String) (default : PyValue) : Except String PyValue :=
  match v with
  | .pydict es => .ok ((pyGet es k).getD default)
  | x => .error ("\x27" ++ typeName x ++ "\x27 object has no attribute \x27get\x27")

/-- Python `s.strip()` on a string: drop whitespace from both ends. -/
def stripStr (s : String) : String :=
  String.mk (((s.data.dropWhile Char.isWhitespace).reverse.dropWhile
    Char.isWhitespace).reverse)

/-- Python `v.strip()`; raises AttributeError on non-strings. -/
def pyStrip (v : PyValue) : Except String String :=
  match v with
  | .pystr s => .ok (stripStr s)
  | x => .error ("\x27" ++ typeName x ++ "\x27 object has no attribute \x27strip\x27")

/-- The static Edge TTS voice catalog (`language_dict` in server.py). -/
def language_dict : List (String × List (String × String)) := [
  ("English", [("Jenny", "en-US-JennyNeural"), ("Guy", "en-US-GuyNeural")]),
  ("Hindi", [("Madhur", "hi-IN-MadhurNeural"), ("Swara", "hi-IN-SwaraNeural")]),
  ("Tamil", [("Pallavi", "ta-IN-PallaviNeural"), ("Valluvar", "ta-IN-ValluvarNeural")]),
  ("Telugu", [("Mohan", "te-IN-MohanNeural"), ("Shruti", "te-IN-ShrutiNeural")]),
  ("Kannada", [("Gagan", "kn-IN-GaganNeural"), ("Sapna", "kn-IN-SapnaNeural")]),
  ("Malayalam", [("Midhun", "ml-IN-MidhunNeural"), ("Sobhana", "ml-IN-SobhanaNeural")]),
  ("Marathi", [("Aarohi", "mr-IN-AarohiNeural"), ("Manohar", "mr-IN-ManoharNeural")]),
  ("Gujarati", [("Dhwani", "gu-IN-DhwaniNeural"), ("Niranjan", "gu-IN-NiranjanNeural")]),
  ("Bengali", [("Nabanita", "bn-BD-NabanitaNeural"), ("Bashkar", "bn-IN-BashkarNeural")]),
  ("Urdu", [("Gul", "ur-IN-GulNeural"), ("Salman", "ur-IN-SalmanNeural")])]

/-- All backend voice identifiers occurring in the catalog. -/
def catalogVoices : List String :=
  language_dict.flatMap (fun p => p.2.map Prod.snd)

/-- Key lookup in a catalog, preserving entry order (Python dict lookup). -/
def lookupLang (cat : List (String × List (String × String))) (l : String) :
    Option (List (String × String)) :=
  match cat with
  | [] => none
  | (k, v) :: rest => if l = k then some v else lookupLang rest l

/-- Python `language not in language_dict` membership test on the key,
which raises TypeError for unhashable keys. -/
def pyInCatalogKeys (cat : List (String × List (String × String))) :
    PyValue → Except String Bool
  | .pystr s => .ok ((lookupLang cat s).isSome)
  | .pyint _ => .ok false
  | .pybool _ => .ok false
  | .pynull => .ok false
  | .pylist _ => .error "unhashable type: \x27list\x27"
  | .pydict _ => .error "unhashable type: \x27dict\x27"

/-- Voice resolution of `generate_tts_audio` (server.py lines 70-76):
unknown languages fall back to "English", then the first speaker of the
resolved language supplies the voice identifier. -/
def resolveVoice (cat : List (String × List (String × String)))
    (language : PyValue) : Except String String :=
  match pyInCatalogKeys cat language with
  | .error e => .error e
  | .ok mem =>
    match (if mem then language else .pystr "English") with
    | .pystr s =>
      match lookupLang cat s with
      | some speakers =>
        match speakers.head? with
        | some p => .ok p.2
        | none => .error "IndexError: list index out of range"
      | none => .error ("KeyError: \x27" ++ s ++ "\x27")
    | v => .error ("unhashable key: " ++ typeName v)

/-- Gateway state: the files currently existing in temporary storage and
the process-wide voice catalog. -/
structure Store where
  files : List String
  catalog : List (String × List (String × String))

/-- An HTTP response body: JSON or a streamed file. -/
inductive Body where
  | json (v : PyValue)
  | file (path : String) (mime : String)

/-- An HTTP response: status code and body. -/
structure Response where
  status : Nat
  body : Body

/-- A JSON error response, as produced by `jsonify({"error": msg}), code`. -/
def errResp (code : Nat) (msg : String) : Response :=
  ⟨code, .json (.pydict [("error", .pystr msg)])⟩

/-- Is a body a JSON object with a single string-valued `error` field? -/
def errBody : Body → Bool
  | .json (.pydict (("error", .pystr _) :: [])) => true
  | _ => false

/-- Outcome of the edge_tts `save` call: success or a raised fault. -/
inductive TtsResult where
  | ok
  | err (msg : String)

/-- The body of `generate_tts_audio` (server.py lines 69-86): resolves a
voice, creates the temporary `.mp3` artifact, and invokes the edge_tts
backend to save into it. Returns the resulting path or the raised error,
the updated store, and the list of voices passed to the backend. -/
def generate_tts_audio (st : Store) (text : PyValue) (language : PyValue)
    (mp3Name : String) (backend : TtsResult) :
    Except String String × Store × List String :=
  match resolveVoice st.catalog language with
  | .error e => (.error e, st, [])
  | .ok voice =>
    let st1 : Store := ⟨mp3Name :: st.files, st.catalog⟩
    match backend with
    | .ok => (.ok mp3Name, st1, [voice])
    | .err msg => (.error msg, st1, [voice])

/-- A /transcribe request: whether the multipart `file` field is present,
and the uploaded filename. -/
structure TranscribeRequest where
  hasFile : Bool
  filename : String

/-- Outcome of `replicate.run`: an output value or a raised fault. -/
inductive ReplicateResult where
  | ok (output : PyValue)
  | err (msg : String)

/-- The input dictionary passed to `replicate.run` (server.py 120-130). -/
structure ReplicateInput where
  audioPath : String
  model : String
  language : String
  translate : Bool
  temperature : Int
  suppress_tokens : String
  logprob_threshold : Rat
  no_speech_threshold : Rat
  condition_on_previous_text : Bool

/-- The concrete input dict built by the /transcribe handler: a handle to
the saved audio file plus fixed decoding parameters. -/
def replicateInput (p : String) : ReplicateInput :=
  { audioPath := p, model := "large-v3", language := "auto", translate := false,
    temperature := 0, suppress_tokens := "-1", logprob_threshold := -1,
    no_speech_threshold := 0.6, condition_on_previous_text := true }

/-- Transcript extraction from the backend output (server.py 140-146). -/
def extract_transcription (output : PyValue) : PyValue :=
  match output with
  | .pydict es => (pyGet es "transcription").getD (.pystr (pyStr output))
  | .pystr s => .pystr s
  | v => .pystr (pyStr v)

/-- Language extraction from the backend output (server.py line 150). -/
def extract_language (output : PyValue) : PyValue :=
  match output with
  | .pydict es => (pyGet es "language").getD .pynull
  | _ => .pynull

/-- Deletion of a file from temporary storage (`os.unlink`). -/
def removeFile (st : Store) (n : String) : Store :=
  ⟨st.files.filter (fun f => f ≠ n), st.catalog⟩

/-- The /transcribe handler (server.py lines 92-162). `tempName` is the
unique name tempfile chooses for the `.webm` artifact; `backend` is the
behaviour of `replicate.run`. Returns the response, the final store, and
the trace of replicate invocations. -/
def transcribe (st : Store) (req : TranscribeRequest) (tempName : String)
    (backend : ReplicateResult) : Response × Store × List ReplicateInput :=
  if !req.hasFile then
    (errResp 400 "No audio file provided", st, [])
  else if req.filename = "" then
    (errResp 400 "No file selected", st, [])
  else
    let st1 : Store := ⟨tempName :: st.files, st.catalog⟩
    match backend with
    | .ok output =>
      let st2 := removeFile st1 tempName
      (⟨200, .json (.pydict [("transcription", extract_transcription output),
          ("language", extract_language output)])⟩, st2, [replicateInput tempName])
    | .err msg =>
      let st2 := removeFile st1 tempName
      (errResp 500 ("Transcription failed: " ++ msg), st2, [replicateInput tempName])

/-- The /tts handler (server.py lines 164-200). `data` is the parsed JSON
body; `mp3Name` the unique name tempfile chooses for the `.mp3` artifact;
`backend` the behaviour of the edge_tts save call. Any exception raised in
the body is caught by the outer handler and mapped to a 500 response.
Returns the response, the final store, and the voices sent to the backend. -/
def text_to_speech (st : Store) (data : PyValue) (mp3Name : String)
    (backend : TtsResult) : Response × Store × List String :=
  if !pyTruthy data then
    (errResp 400 "No text provided", st, [])
  else
    match pyIn "text" data with
    | .error e => (errResp 500 ("TTS generation failed: " ++ e), st, [])
    | .ok false => (errResp 400 "No text provided", st, [])
    | .ok true =>
      match pySubscript data "text" with
      | .error e => (errResp 500 ("TTS generation failed: " ++ e), st, [])
      | .ok text =>
        match pyGetMethod data "language" (.pystr "English") with
        | .error e => (errResp 500 ("TTS generation failed: " ++ e), st, [])
        | .ok language =>
          match pyStrip text with
          | .error e => (errResp 500 ("TTS generation failed: " ++ e), st, [])
          | .ok stripped =>
            if stripped = "" then
              (errResp 400 "Empty text provided", st, [])
            else
              match (generate_tts_audio st text language mp3Name backend).1 with
              | .ok path => (⟨200, .file path "audio/mpeg"⟩,
                  (generate_tts_audio st text language mp3Name backend).2)
              | .error e => (errResp 500 ("TTS generation failed: " ++ e),
                  (generate_tts_audio st text language mp3Name backend).2)

/-! Helper lemmas about the embedded operations. -/

theorem pyGet_none_any (es : List (String × PyValue)) (k : String)
    (h : pyGet es k = none) : es.any (fun p => p.1 == k) = false := by
  induction es with
  | nil => rfl
  | cons e rest ih =>
    obtain ⟨k2, v⟩ := e
    simp only [pyGet] at h
    by_cases hk : k2 = k
    · simp [hk] at h
    · simp only [List.any_cons, ih (by simpa [hk] using h)]
      simp [hk]

theorem pyGet_some_any (es : List (String × PyValue)) (k : String) (v : PyValue)
    (h : pyGet es k = some v) : es.any (fun p => p.1 == k) = true := by
  induction es with
  | nil => simp [pyGet] at h
  | cons e rest ih =>
    obtain ⟨k2, w⟩ := e
    simp only [pyGet] at h
    by_cases hk : k2 = k
    · simp [hk]
    · simp only [List.any_cons, ih (by simpa [hk] using h)]
      simp

theorem pyGet_isEmpty (es : List (String × PyValue)) (k : String) (v : PyValue)
    (h : pyGet es k = some v) : es.isEmpty = false := by
  cases es with
  | nil => simp [pyGet] at h
  | cons e rest => rfl

theorem stripStr_all_whitespace (t : String)
    (h : ∀ c ∈ t.data, c.isWhitespace) : stripStr t = "" := by
  unfold stripStr
  rw [List.dropWhile_eq_nil_iff.mpr h]
  rfl

theorem pyStrip_nonstr (v : PyValue) (hv : ∀ s, v ≠ .pystr s) :
    pyStrip v = .error ("\x27" ++ typeName v ++
      "\x27 object has no attribute \x27strip\x27") := by
  cases v with
  | pystr s => exact absurd rfl (hv s)
  | pynull => rfl
  | pybool b => rfl
  | pyint n => rfl
  | pylist xs => rfl
  | pydict es => rfl

set_option maxHeartbeats 1000000 in
theorem lookupLang_nonempty (l : String) (sp : List (String × String))
    (h : lookupLang language_dict l = some sp) :
    ∃ p rest, sp = p :: rest ∧ p.2 ∈ catalogVoices := by
  simp only [language_dict, lookupLang] at h
  split_ifs at h <;>
    first
      | (injection h with h2; subst h2;
         exact ⟨_, _, rfl, by simp [catalogVoices, language_dict]⟩)
      | simp at h

theorem generate_tts_audio_catalog (st : Store) (text language : PyValue)
    (mp3Name : String) (backend : TtsResult) :
    (generate_tts_audio st text language mp3Name backend).2.1.catalog = st.catalog := by
  unfold generate_tts_audio
  rcases resolveVoice st.catalog language with e | voice
  · rfl
  · cases backend <;> rfl

theorem generate_tts_audio_ok_files (st : Store) (text language : PyValue)
    (mp3Name : String) (backend : TtsResult) (path : String)
    (h : (generate_tts_audio st text language mp3Name backend).1 = .ok path) :
    mp3Name ∈ (generate_tts_audio st text language mp3Name backend).2.1.files := by
  unfold generate_tts_audio at h ⊢
  rcases hr : resolveVoice st.catalog language with e | voice
  · rw [hr] at h
    simp at h
  · rw [hr] at h
    cases backend
    · simp
    · simp at h

theorem transcribe_response_shape (st : Store) (req : TranscribeRequest)
    (tempName : String) (rb : ReplicateResult) :
    (transcribe st req tempName rb).1.status = 200 ∨
    (errBody (transcribe st req tempName rb).1.body = true ∧
      ((transcribe st req tempName rb).1.status = 400 ∨
        (transcribe st req tempName rb).1.status = 500)) := by
  unfold transcribe
  split_ifs
  · exact Or.inr ⟨rfl, Or.inl rfl⟩
  · exact Or.inr ⟨rfl, Or.inl rfl⟩
  · cases rb
    · exact Or.inl rfl
    · exact Or.inr ⟨rfl, Or.inr rfl⟩

theorem tts_response_shape (st : Store) (data : PyValue) (mp3Name : String)
    (tb : TtsResult) :
    (text_to_speech st data mp3Name tb).1.status = 200 ∨
    (errBody (text_to_speech st data mp3Name tb).1.body = true ∧
      ((text_to_speech st data mp3Name tb).1.status = 400 ∨
        (text_to_speech st data mp3Name tb).1.status = 500)) := by
  unfold text_to_speech
  repeat' split
  all_goals
    first
      | exact Or.inl rfl
      | exact Or.inr ⟨rfl, Or.inl rfl⟩
      | exact Or.inr ⟨rfl, Or.inr rfl⟩

theorem tts_200_creates_mp3 (st : Store) (data : PyValue) (mp3Name : String)
    (tb : TtsResult)
    (h : (text_to_speech st data mp3Name tb).1.status = 200) :
    mp3Name ∈ (text_to_speech st data mp3Name tb).2.1.files := by
  revert h
  unfold text_to_speech
  repeat' split
  all_goals intro h
  all_goals
    first
      | (rename_i hmatch; exact generate_tts_audio_ok_files _ _ _ _ _ _ hmatch)
      | (exact absurd h (by simp [errResp]))

/-! Claim theorems. -/

/-- Claim C1, counterexample: a successful /tts request (terminal outcome
200) leaves its output `.mp3` artifact in storage — the handler never
deletes it, so the cleanup invariant fails as stated. -/
theorem c1_counterexample :
    (text_to_speech ⟨[], language_dict⟩ (.pydict [("text", .pystr "hi")])
      "out.mp3" .ok).1.status = 200 ∧
    "out.mp3" ∈ (text_to_speech ⟨[], language_dict⟩ (.pydict [("text", .pystr "hi")])
      "out.mp3" .ok).2.1.files :=
  ⟨rfl, by rw [show (text_to_speech ⟨[], language_dict⟩
    (.pydict [("text", .pystr "hi")]) "out.mp3" .ok).2.1.files
      = ["out.mp3"] from rfl]; exact List.mem_singleton.mpr rfl⟩

/-- Claim C1 (amended): the input `.webm` artifact of /transcribe no longer
exists after any terminal outcome of the handler, but the output `.mp3`
artifact of the TTS generator is not deleted: after a 200 /tts response it
still exists in storage. -/
theorem c1_cleanup_amended (st : Store) (req : TranscribeRequest)
    (tempName : String) (rb : ReplicateResult) (data : PyValue)
    (mp3Name : String) (tb : TtsResult)
    (h : tempName ∉ st.files) :
    tempName ∉ (transcribe st req tempName rb).2.1.files ∧
    ((text_to_speech st data mp3Name tb).1.status = 200 →
      mp3Name ∈ (text_to_speech st data mp3Name tb).2.1.files) := by
  constructor
  · unfold transcribe
    split_ifs
    · exact h
    · exact h
    · cases rb <;> simp [removeFile]
  · exact tts_200_creates_mp3 st data mp3Name tb

/-- Witness for C1 (amended) at a concrete success of each handler. -/
theorem c1_witness :
    "t.webm" ∉ (transcribe ⟨[], language_dict⟩ ⟨true, "c.webm"⟩ "t.webm"
      (.ok (.pystr "x"))).2.1.files ∧
    ((text_to_speech ⟨[], language_dict⟩ (.pydict [("text", .pystr "hi")])
        "o.mp3" .ok).1.status = 200 →
      "o.mp3" ∈ (text_to_speech ⟨[], language_dict⟩
        (.pydict [("text", .pystr "hi")]) "o.mp3" .ok).2.1.files) :=
  c1_cleanup_amended ⟨[], language_dict⟩ ⟨true, "c.webm"⟩ "t.webm"
    (.ok (.pystr "x")) (.pydict [("text", .pystr "hi")]) "o.mp3" .ok
    (by simp)

/-- Claim C2: voice resolution is total — for any requested language (and
any speaker, which the code never consults) it returns a voice identifier
from the catalog without raising, and the unrecognized language "Klingon"
resolves to English's first speaker's voice, en-US-JennyNeural. -/
theorem c2_voice_resolution (language speaker : String) :
    (∃ v, resolveVoice language_dict (.pystr language) = .ok v ∧
      v ∈ catalogVoices) ∧
    resolveVoice language_dict (.pystr "Klingon") = .ok "en-US-JennyNeural" := by
  refine ⟨?_, rfl⟩
  by_cases hmem : (lookupLang language_dict language).isSome = true
  · obtain ⟨sp, hsp⟩ := Option.isSome_iff_exists.mp hmem
    obtain ⟨p, rest, hrw, hv⟩ := lookupLang_nonempty language sp hsp
    refine ⟨p.2, ?_, hv⟩
    simp [resolveVoice, pyInCatalogKeys, hmem, hsp, hrw]
  · refine ⟨"en-US-JennyNeural", ?_, by simp [catalogVoices, language_dict]⟩
    simp only [Bool.not_eq_true] at hmem
    simp only [resolveVoice, pyInCatalogKeys, hmem]
    simp [lookupLang, language_dict]

/-- Claim C4: when the transcription backend raises, /transcribe responds
500 with an error body embedding the backend's message verbatim, and the
temporary audio artifact no longer exists in storage. -/
theorem c4_upstream_fault (st : Store) (req : TranscribeRequest)
    (tempName msg : String)
    (hf : req.hasFile = true) (hn : ¬ req.filename = "")
    (hold : tempName ∉ st.files) :
    (transcribe st req tempName (.err msg)).1.status = 500 ∧
    (transcribe st req tempName (.err msg)).1.body =
      .json (.pydict [("error", .pystr ("Transcription failed: " ++ msg))]) ∧
    (∃ rest, "Transcription failed: " ++ msg = rest ++ msg) ∧
    tempName ∉ (transcribe st req tempName (.err msg)).2.1.files := by
  refine ⟨?_, ?_, ⟨"Transcription failed: ", rfl⟩, ?_⟩ <;>
    simp [transcribe, hf, hn, errResp, removeFile]

/-- Witness for C4 at a concrete faulting backend. -/
theorem c4_witness :
    (transcribe ⟨[], language_dict⟩ ⟨true, "c.webm"⟩ "t.webm"
      (.err "quota exceeded")).1.status = 500 ∧
    (transcribe ⟨[], language_dict⟩ ⟨true, "c.webm"⟩ "t.webm"
      (.err "quota exceeded")).1.body =
      .json (.pydict [("error",
        .pystr ("Transcription failed: " ++ "quota exceeded"))]) ∧
    (∃ rest, "Transcription failed: " ++ "quota exceeded"
      = rest ++ "quota exceeded") ∧
    "t.webm" ∉ (transcribe ⟨[], language_dict⟩ ⟨true, "c.webm"⟩ "t.webm"
      (.err "quota exceeded")).2.1.files :=
  c4_upstream_fault ⟨[], language_dict⟩ ⟨true, "c.webm"⟩ "t.webm"
    "quota exceeded" rfl (by simp) (by simp)

/-- Claim C7, counterexample: a valid request does invoke the backend
exactly once, but the model variant passed is "large-v3", not "large". -/
theorem c7_counterexample :
    (transcribe ⟨[], language_dict⟩ ⟨true, "clip.webm"⟩ "t.webm"
      (.ok (.pystr "hi"))).2.2 = [replicateInput "t.webm"] ∧
    (replicateInput "t.webm").model ≠ "large" :=
  ⟨rfl, by decide⟩

/-- Claim C7 (amended): every invocation of the transcription backend
passes the same fixed decoding configuration — model variant "large-v3",
automatic language detection, temperature 0, and fixed suppression and
threshold parameters — independent of the request or filename. -/
theorem c7_fixed_config (st : Store) (req : TranscribeRequest)
    (tempName : String) (rb : ReplicateResult)
    (hf : req.hasFile = true) (hn : ¬ req.filename = "") :
    (transcribe st req tempName rb).2.2 = [replicateInput tempName] ∧
    (replicateInput tempName).model = "large-v3" ∧
    (replicateInput tempName).language = "auto" ∧
    (replicateInput tempName).translate = false ∧
    (replicateInput tempName).temperature = 0 ∧
    (replicateInput tempName).suppress_tokens = "-1" ∧
    (replicateInput tempName).logprob_threshold = -1 ∧
    (replicateInput tempName).no_speech_threshold = 0.6 ∧
    (replicateInput tempName).condition_on_previous_text = true := by
  refine ⟨?_, rfl, rfl, rfl, rfl, rfl, rfl, rfl, rfl⟩
  unfold transcribe
  simp only [hf, hn, Bool.not_true, Bool.false_eq_true, if_false, if_neg]
  cases rb <;> rfl

/-- Witness for C7 (amended) at a concrete valid request. -/
theorem c7_witness :
    (transcribe ⟨[], language_dict⟩ ⟨true, "c.webm"⟩ "t.webm"
      (.err "boom")).2.2 = [replicateInput "t.webm"] ∧
    (replicateInput "t.webm").model = "large-v3" ∧
    (replicateInput "t.webm").language = "auto" ∧
    (replicateInput "t.webm").translate = false ∧
    (replicateInput "t.webm").temperature = 0 ∧
    (replicateInput "t.webm").suppress_tokens = "-1" ∧
    (replicateInput "t.webm").logprob_threshold = -1 ∧
    (replicateInput "t.webm").no_speech_threshold = 0.6 ∧
    (replicateInput "t.webm").condition_on_previous_text = true :=
  c7_fixed_config ⟨[], language_dict⟩ ⟨true, "c.webm"⟩ "t.webm"
    (.err "boom") rfl (by simp)

/-- Claim C8: every language of the voice catalog maps to at least one
speaker, and neither request handler ever mutates the catalog — the
catalog component of the state is unchanged on every path. -/
theorem c8_catalog_invariant (st : Store) (req : TranscribeRequest)
    (tempName mp3Name : String) (rb : ReplicateResult) (data : PyValue)
    (tb : TtsResult) :
    (∀ p ∈ language_dict, p.2 ≠ []) ∧
    (transcribe st req tempName rb).2.1.catalog = st.catalog ∧
    (text_to_speech st data mp3Name tb).2.1.catalog = st.catalog := by
  refine ⟨by decide, ?_, ?_⟩
  · unfold transcribe
    split_ifs
    · rfl
    · rfl
    · cases rb <;> rfl
  · unfold text_to_speech
    repeat' split
    all_goals first
      | rfl
      | exact generate_tts_audio_catalog st _ _ mp3Name tb

/-- Claim C3: a transcription request with no file field or an empty
filename, and a synthesis request whose JSON body lacks a text field or
whose text is an empty or whitespace-only string, are each rejected with
HTTP 400 and an error body, with no backend invocation and the temporary
storage unchanged (no artifact created). -/
theorem c3_validation (st : Store) (req : TranscribeRequest)
    (tempName mp3Name : String) (rb : ReplicateResult)
    (es : List (String × PyValue)) (tb : TtsResult)
    (h1 : req.hasFile = false ∨ req.filename = "")
    (h2 : pyGet es "text" = none ∨
      ∃ t, pyGet es "text" = some (.pystr t) ∧ ∀ c ∈ t.data, c.isWhitespace) :
    (transcribe st req tempName rb).1.status = 400 ∧
    errBody (transcribe st req tempName rb).1.body = true ∧
    (transcribe st req tempName rb).2.2 = [] ∧
    (transcribe st req tempName rb).2.1 = st ∧
    (text_to_speech st (.pydict es) mp3Name tb).1.status = 400 ∧
    errBody (text_to_speech st (.pydict es) mp3Name tb).1.body = true ∧
    (text_to_speech st (.pydict es) mp3Name tb).2.2 = [] ∧
    (text_to_speech st (.pydict es) mp3Name tb).2.1 = st := by
  have htr : (transcribe st req tempName rb).1.status = 400 ∧
      errBody (transcribe st req tempName rb).1.body = true ∧
      (transcribe st req tempName rb).2.2 = [] ∧
      (transcribe st req tempName rb).2.1 = st := by
    rcases h1 with h1 | h1
    · unfold transcribe
      simp [h1, errBody, errResp]
    · unfold transcribe
      cases hof : req.hasFile <;> simp [h1, hof, errBody, errResp]
  have htts : (text_to_speech st (.pydict es) mp3Name tb).1.status = 400 ∧
      errBody (text_to_speech st (.pydict es) mp3Name tb).1.body = true ∧
      (text_to_speech st (.pydict es) mp3Name tb).2.2 = [] ∧
      (text_to_speech st (.pydict es) mp3Name tb).2.1 = st := by
    rcases h2 with h2 | ⟨t, hget, hws⟩
    · cases es with
      | nil => exact ⟨rfl, rfl, rfl, rfl⟩
      | cons e rest =>
        unfold text_to_speech
        simp [pyTruthy, pyIn, pyGet_none_any _ _ h2, errBody, errResp]
    · unfold text_to_speech
      simp [pyTruthy, pyGet_isEmpty es "text" _ hget, pyIn,
        pyGet_some_any es "text" _ hget, pySubscript, hget, pyGetMethod,
        pyStrip, stripStr_all_whitespace t hws, errBody, errResp]
  exact ⟨htr.1, htr.2.1, htr.2.2.1, htr.2.2.2,
    htts.1, htts.2.1, htts.2.2.1, htts.2.2.2⟩

/-- Witness for C3: a request with no file and a body whose text is a
single space. -/
theorem c3_witness :
    (transcribe ⟨[], language_dict⟩ ⟨false, "c.webm"⟩ "t.webm"
      (.ok (.pystr "x"))).1.status = 400 ∧
    errBody (transcribe ⟨[], language_dict⟩ ⟨false, "c.webm"⟩ "t.webm"
      (.ok (.pystr "x"))).1.body = true ∧
    (transcribe ⟨[], language_dict⟩ ⟨false, "c.webm"⟩ "t.webm"
      (.ok (.pystr "x"))).2.2 = [] ∧
    (transcribe ⟨[], language_dict⟩ ⟨false, "c.webm"⟩ "t.webm"
      (.ok (.pystr "x"))).2.1 = ⟨[], language_dict⟩ ∧
    (text_to_speech ⟨[], language_dict⟩ (.pydict [("text", .pystr " ")])
      "o.mp3" .ok).1.status = 400 ∧
    errBody (text_to_speech ⟨[], language_dict⟩
      (.pydict [("text", .pystr " ")]) "o.mp3" .ok).1.body = true ∧
    (text_to_speech ⟨[], language_dict⟩ (.pydict [("text", .pystr " ")])
      "o.mp3" .ok).2.2 = [] ∧
    (text_to_speech ⟨[], language_dict⟩ (.pydict [("text", .pystr " ")])
      "o.mp3" .ok).2.1 = ⟨[], language_dict⟩ :=
  c3_validation ⟨[], language_dict⟩ ⟨false, "c.webm"⟩ "t.webm" "o.mp3"
    (.ok (.pystr "x")) [("text", .pystr " ")] .ok (Or.inl rfl)
    (Or.inr ⟨" ", rfl, by decide⟩)

/-- Claim C5: the /transcribe success mapping is total over backend output
shapes — a dict with a "transcription" field yields that field's value
with the dict's "language" field as language tag, a plain string yields
itself, any other shape yields its stringified form; in particular the
stubbed output with transcription "hello world" and language "en" yields
exactly that JSON body with status 200. -/
theorem c5_output_mapping (st : Store) (tempName s : String)
    (es : List (String × PyValue)) (v lv w : PyValue)
    (h : pyGet es "transcription" = some v)
    (hl : pyGet es "language" = some lv)
    (hw : (∀ es2, w ≠ .pydict es2) ∧ (∀ s2, w ≠ .pystr s2)) :
    extract_transcription (.pydict es) = v ∧
    extract_language (.pydict es) = lv ∧
    extract_transcription (.pystr s) = .pystr s ∧
    extract_transcription w = .pystr (pyStr w) ∧
    (transcribe st ⟨true, "clip.webm"⟩ tempName (.ok (.pydict
      [("transcription", .pystr "hello world"),
       ("language", .pystr "en")]))).1.status = 200 ∧
    (transcribe st ⟨true, "clip.webm"⟩ tempName (.ok (.pydict
      [("transcription", .pystr "hello world"),
       ("language", .pystr "en")]))).1.body =
      .json (.pydict [("transcription", .pystr "hello world"),
        ("language", .pystr "en")]) := by
  refine ⟨?_, ?_, rfl, ?_, rfl, rfl⟩
  · simp [extract_transcription, h]
  · simp [extract_language, hl]
  · cases w with
    | pydict es2 => exact absurd rfl (hw.1 es2)
    | pystr s2 => exact absurd rfl (hw.2 s2)
    | pynull => rfl
    | pybool b => rfl
    | pyint n => rfl
    | pylist xs => rfl

/-- Witness for C5 at a concrete dict, string and non-dict output. -/
theorem c5_witness :
    extract_transcription (.pydict [("transcription", .pystr "a"),
      ("language", .pystr "b")]) = .pystr "a" ∧
    extract_language (.pydict [("transcription", .pystr "a"),
      ("language", .pystr "b")]) = .pystr "b" ∧
    extract_transcription (.pystr "raw") = .pystr "raw" ∧
    extract_transcription (.pyint 7) = .pystr (pyStr (.pyint 7)) ∧
    (transcribe ⟨[], language_dict⟩ ⟨true, "clip.webm"⟩ "t.webm" (.ok (.pydict
      [("transcription", .pystr "hello world"),
       ("language", .pystr "en")]))).1.status = 200 ∧
    (transcribe ⟨[], language_dict⟩ ⟨true, "clip.webm"⟩ "t.webm" (.ok (.pydict
      [("transcription", .pystr "hello world"),
       ("language", .pystr "en")]))).1.body =
      .json (.pydict [("transcription", .pystr "hello world"),
        ("language", .pystr "en")]) :=
  c5_output_mapping ⟨[], language_dict⟩ "t.webm" "raw"
    [("transcription", .pystr "a"), ("language", .pystr "b")]
    (.pystr "a") (.pystr "b") (.pyint 7) rfl rfl
    ⟨fun es2 h => PyValue.noConfusion h, fun s2 h => PyValue.noConfusion h⟩

/-- Claim C6: every failure response of /transcribe and /tts is a JSON
body with a single string-valued error field and a status in 400 or 500;
no handler path produces an unstructured failure. -/
theorem c6_uniform_error (st1 st2 : Store) (req : TranscribeRequest)
    (tempName mp3Name : String) (rb : ReplicateResult) (data : PyValue)
    (tb : TtsResult)
    (h1 : (transcribe st1 req tempName rb).1.status ≠ 200)
    (h2 : (text_to_speech st2 data mp3Name tb).1.status ≠ 200) :
    errBody (transcribe st1 req tempName rb).1.body = true ∧
    ((transcribe st1 req tempName rb).1.status = 400 ∨
      (transcribe st1 req tempName rb).1.status = 500) ∧
    errBody (text_to_speech st2 data mp3Name tb).1.body = true ∧
    ((text_to_speech st2 data mp3Name tb).1.status = 400 ∨
      (text_to_speech st2 data mp3Name tb).1.status = 500) := by
  rcases transcribe_response_shape st1 req tempName rb with h | h
  · exact absurd h h1
  · rcases tts_response_shape st2 data mp3Name tb with g | g
    · exact absurd g h2
    · exact ⟨h.1, h.2, g.1, g.2⟩

/-- Witness for C6: a fileless transcription request and a null /tts
body both fail with the uniform error shape. -/
theorem c6_witness :
    errBody (transcribe ⟨[], language_dict⟩ ⟨false, ""⟩ "t.webm"
      (.ok .pynull)).1.body = true ∧
    ((transcribe ⟨[], language_dict⟩ ⟨false, ""⟩ "t.webm"
        (.ok .pynull)).1.status = 400 ∨
      (transcribe ⟨[], language_dict⟩ ⟨false, ""⟩ "t.webm"
        (.ok .pynull)).1.status = 500) ∧
    errBody (text_to_speech ⟨[], language_dict⟩ .pynull "o.mp3"
      .ok).1.body = true ∧
    ((text_to_speech ⟨[], language_dict⟩ .pynull "o.mp3" .ok).1.status = 400 ∨
      (text_to_speech ⟨[], language_dict⟩ .pynull "o.mp3" .ok).1.status = 500) :=
  c6_uniform_error ⟨[], language_dict⟩ ⟨[], language_dict⟩ ⟨false, ""⟩
    "t.webm" "o.mp3" (.ok .pynull) .pynull .ok (by decide) (by decide)

/-- Claim C9: a /tts request whose text field is present but not a string
is not rejected with 400 — the strip call raises AttributeError, which the
generic handler maps to HTTP 500 with a "TTS generation failed" message,
and no backend call is made and no artifact is created. -/
theorem c9_nonstring_text (st : Store) (es : List (String × PyValue))
    (mp3Name : String) (tb : TtsResult) (v : PyValue)
    (hget : pyGet es "text" = some v)
    (hv : ∀ s, v ≠ .pystr s) :
    (text_to_speech st (.pydict es) mp3Name tb).1.status = 500 ∧
    (text_to_speech st (.pydict es) mp3Name tb).1.status ≠ 400 ∧
    (text_to_speech st (.pydict es) mp3Name tb).1.body =
      .json (.pydict [("error", .pystr ("TTS generation failed: "
        ++ ("\x27" ++ typeName v
          ++ "\x27 object has no attribute \x27strip\x27")))]) ∧
    (text_to_speech st (.pydict es) mp3Name tb).2.2 = [] ∧
    (text_to_speech st (.pydict es) mp3Name tb).2.1 = st := by
  have hred : text_to_speech st (.pydict es) mp3Name tb =
      (errResp 500 ("TTS generation failed: "
        ++ ("\x27" ++ typeName v
          ++ "\x27 object has no attribute \x27strip\x27")), st, []) := by
    unfold text_to_speech
    simp [pyTruthy, pyGet_isEmpty es "text" _ hget, pyIn,
      pyGet_some_any es "text" _ hget, pySubscript, hget, pyGetMethod,
      pyStrip_nonstr v hv]
  rw [hred]
  exact ⟨rfl, by simp [errResp], rfl, rfl, rfl⟩

/-- Witness for C9 at text = 5. -/
theorem c9_witness :
    (text_to_speech ⟨[], language_dict⟩ (.pydict [("text", .pyint 5)])
      "o.mp3" .ok).1.status = 500 ∧
    (text_to_speech ⟨[], language_dict⟩ (.pydict [("text", .pyint 5)])
      "o.mp3" .ok).1.status ≠ 400 ∧
    (text_to_speech ⟨[], language_dict⟩ (.pydict [("text", .pyint 5)])
      "o.mp3" .ok).1.body =
      .json (.pydict [("error", .pystr ("TTS generation failed: "
        ++ ("\x27" ++ typeName (.pyint 5)
          ++ "\x27 object has no attribute \x27strip\x27")))]) ∧
    (text_to_speech ⟨[], language_dict⟩ (.pydict [("text", .pyint 5)])
      "o.mp3" .ok).2.2 = [] ∧
    (text_to_speech ⟨[], language_dict⟩ (.pydict [("text", .pyint 5)])
      "o.mp3" .ok).2.1 = ⟨[], language_dict⟩ :=
  c9_nonstring_text ⟨[], language_dict⟩ [("text", .pyint 5)] "o.mp3" .ok
    (.pyint 5) rfl (fun s h => PyValue.noConfusion h)

/-- Claim C10: when the backend output dict lacks a "transcription" key,
the transcription field is the stringification of the whole dict while the
language field is still taken from the dict's "language" key (null when
absent); and for any non-dict output the language field is null. -/
theorem c10_unrecognized_shape (es : List (String × PyValue))
    (output lv : PyValue)
    (h : pyGet es "transcription" = none)
    (ho : ∀ es2, output ≠ .pydict es2) :
    extract_transcription (.pydict es) = .pystr (pyStr (.pydict es)) ∧
    (pyGet es "language" = some lv → extract_language (.pydict es) = lv) ∧
    (pyGet es "language" = none → extract_language (.pydict es) = .pynull) ∧
    extract_language output = .pynull := by
  refine ⟨by simp [extract_transcription, h], ?_, ?_, ?_⟩
  · intro hl
    simp [extract_language, hl]
  · intro hl
    simp [extract_language, hl]
  · cases output with
    | pydict es2 => exact absurd rfl (ho es2)
    | pystr s2 => rfl
    | pynull => rfl
    | pybool b => rfl
    | pyint n => rfl
    | pylist xs => rfl

/-- Witness for C10 at a dict with only a language key and an integer
output. -/
theorem c10_witness :
    extract_transcription (.pydict [("language", .pystr "en")]) =
      .pystr (pyStr (.pydict [("language", .pystr "en")])) ∧
    (pyGet [("language", .pystr "en")] "language" = some (.pystr "en") →
      extract_language (.pydict [("language", .pystr "en")]) = .pystr "en") ∧
    (pyGet [("language", .pystr "en")] "language" = none →
      extract_language (.pydict [("language", .pystr "en")]) = .pynull) ∧
    extract_language (.pyint 3) = .pynull :=
  c10_unrecognized_shape [("language", .pystr "en")] (.pyint 3)
    (.pystr "en") rfl (fun es2 h => PyValue.noConfusion h)
